import Mathlib

/-!
Shallow embedding of `ilopezluna/go-pdf-extractor` (packages `parser`,
`schema`, `extractor`, `types`) and proofs about its extraction policy.

Modelling conventions:
* Go strings are Lean `String`; byte buffers are `List Nat` (one entry per
  byte); Go `int` is `Int`.
* Go `map[string]interface{}` values that are only passed through are
  modelled as association lists over an inductive JSON value type.
* External libraries (go-fitz, pdfcpu, gojsonschema, net/http,
  encoding/json) are black boxes: each call into one is a function
  parameter (an oracle), so every theorem quantifies over their behaviour.
* A Go function returning `(T, error)` becomes `Except String T` (or a
  dedicated error inductive when distinct failures matter).
-/

namespace GoPdfExtractor

/-- JSON value, the shape of Go `interface{}` holding decoded JSON. -/
inductive JsonValue where
  | null : JsonValue
  | bool (b : Bool) : JsonValue
  | num (q : ℚ) : JsonValue
  | str (s : String) : JsonValue
  | arr (elems : List JsonValue) : JsonValue
  | obj (fields : List (String × JsonValue)) : JsonValue

/-- Go `map[string]interface{}` (a JSON object's fields). -/
abbrev SchemaMap := List (String × JsonValue)

/-! ## Package `parser` (src/pkg/schema/validator.go, `package parser` part) -/

/-- The bytes of the ASCII signature `%PDF`. -/
def pdfSignature : List Nat := [37, 80, 68, 70]

/-- `isValidPdfSignature` from validator.go lines 128-134: a buffer is a
valid PDF when it has at least 4 bytes and its first four bytes are
`%PDF`. -/
def isValidPdfSignature (buffer : List Nat) : Bool :=
  if buffer.length < 4 then false
  else buffer.take 4 = pdfSignature

/-- Go `unicode.IsSpace`, the predicate `strings.TrimSpace` trims by:
the White_Space Unicode property. -/
def goIsSpace (c : Char) : Bool :=
  c = '\t' || c = '\n' || c = '\u000B' || c = '\u000C' || c = '\r' || c = ' ' ||
  c = '\u0085' || c = '\u00A0' || c = '\u1680' ||
  ('\u2000' ≤ c && c ≤ '\u200A') ||
  c = '\u2028' || c = '\u2029' || c = '\u202F' || c = '\u205F' || c = '\u3000'

/-- Go `strings.TrimSpace` on the character sequence of a string: drop
White_Space characters from both ends. -/
def trimSpace (s : List Char) : List Char :=
  ((s.dropWhile goIsSpace).reverse.dropWhile goIsSpace).reverse

/-- `hasExtractableText` from validator.go lines 137-143: empty text never
qualifies; otherwise the trimmed text must reach the threshold. -/
def hasExtractableText (text : List Char) (threshold : Int) : Bool :=
  if text = [] then false
  else threshold ≤ (trimSpace text).length

/-- A page image record (`types.PdfPageImage`): 1-indexed page number plus
the base64-encoded PNG bytes of the rendered page. -/
structure PdfPageImage where
  page : Int
  base64 : String
deriving DecidableEq

/-- `types.ParsedPdfContent`. The Go field `Type` (a string, `"text"` or
`"images"`) is `contentType` here because `type` is a Lean keyword. -/
structure ParsedPdfContent where
  contentType : String
  textContent : String
  imageContent : List PdfPageImage

/-- `types.ParsedPdf`. -/
structure ParsedPdf where
  content : ParsedPdfContent
  numPages : Int
  info : SchemaMap

/-- `types.ParseOptions`. -/
structure ParseOptions where
  textThreshold : Int
deriving DecidableEq

/-- An open go-fitz document handle, as the black box the parser calls
into: `pageText n` is `doc.Text(n)`, `numPage` is `doc.NumPage()`, and
`pageImage n` is `doc.Image(n)` followed by PNG- and base64-encoding
(either step's failure folded into the `Except`). -/
structure FitzDoc where
  pageText : Nat → Except String String
  numPage : Nat
  pageImage : Nat → Except String String

/-- The external PDF libraries as oracles: `pdfInfo` is pdfcpu's
`api.PDFInfo` (yielding the `PageCount` field, `none` for a nil info
pointer), `newFromMemory` is go-fitz's `fitz.NewFromMemory`. -/
structure PdfLib where
  pdfInfo : List Nat → Except String (Option Int)
  newFromMemory : List Nat → Except String FitzDoc

/-- `getPageCount` from validator.go lines 179-195: probe errors
propagate; a positive reported count is returned as-is; a nil info or a
non-positive count falls back to 1. -/
def getPageCount (lib : PdfLib) (buffer : List Nat) : Except String Int :=
  match lib.pdfInfo buffer with
  | .error e => .error e
  | .ok info =>
    match info with
    | some pageCount => if pageCount > 0 then .ok pageCount else .ok 1
    | none => .ok 1

/-- The page loop of `extractTextFromPdf` (validator.go lines 162-170):
iterate the per-page `doc.Text` results in page order; a failed page is
skipped (`continue`); a successful page's text is appended followed by a
newline. -/
def extractPagesText (pageResults : List (Except String String)) : String :=
  pageResults.foldl
    (fun acc r =>
      match r with
      | .error _ => acc
      | .ok pageText => acc ++ pageText ++ "\n") ""

/-- `extractTextFromPdf` from validator.go lines 146-176: page-count probe
failure defaults the count to 1; a failed document open yields empty text
and empty metadata (never an error); otherwise the page loop runs for
`numPages` pages. Every path returns `.ok` (the Go function always
returns a nil error). -/
def extractTextFromPdf (lib : PdfLib) (buffer : List Nat) :
    Except String (String × Int × SchemaMap) :=
  let numPages : Int :=
    match getPageCount lib buffer with
    | .error _ => 1
    | .ok n => n
  match lib.newFromMemory buffer with
  | .error _ => .ok ("", numPages, [])
  | .ok doc =>
    .ok (extractPagesText ((List.range numPages.toNat).map doc.pageText), numPages, [])

/-- `convertPdfToImages` from validator.go lines 198-241: open failure and
zero pages are errors; pages are rendered in order, any page failure
aborts; page numbers in the result are 1-indexed. -/
def convertPdfToImages (lib : PdfLib) (buffer : List Nat) :
    Except String (List PdfPageImage) :=
  match lib.newFromMemory buffer with
  | .error e => .error ("failed to open PDF: " ++ e)
  | .ok doc =>
    if doc.numPage = 0 then .error "PDF conversion produced no images"
    else
      (List.range doc.numPage).foldl
        (fun acc pageNum =>
          match acc with
          | .error e => .error e
          | .ok images =>
            match doc.pageImage pageNum with
            | .error e =>
              .error ("failed to render or encode page " ++ toString (pageNum + 1) ++ ": " ++ e)
            | .ok b64 => .ok (images ++ [{ page := (pageNum : Int) + 1, base64 := b64 }]))
        (.ok [])

/-- `defaultTextThreshold` of package parser (validator.go line 50). -/
def parserDefaultTextThreshold : Int := 100

/-- The threshold resolution at the top of `ParsePdfFromBuffer`
(validator.go lines 70-73): the option value is used only when present
and strictly positive, otherwise the default 100. -/
def effectiveThreshold (options : Option ParseOptions) : Int :=
  match options with
  | some o => if o.textThreshold > 0 then o.textThreshold else parserDefaultTextThreshold
  | none => parserDefaultTextThreshold

/-- `ParsePdfFromBuffer` from validator.go lines 64-107: signature gate
first, then text extraction, then the text-sufficiency decision, falling
back to image conversion. -/
def ParsePdfFromBuffer (lib : PdfLib) (buffer : List Nat) (options : Option ParseOptions) :
    Except String ParsedPdf :=
  if !isValidPdfSignature buffer then
    .error "invalid PDF: file does not contain PDF signature"
  else
    let threshold := effectiveThreshold options
    match extractTextFromPdf lib buffer with
    | .error msg => .error ("failed to parse PDF: " ++ msg)
    | .ok (text, numPages, info) =>
      if hasExtractableText text.data threshold then
        .ok { content := { contentType := "text", textContent := text, imageContent := [] },
              numPages := numPages, info := info }
      else
        match convertPdfToImages lib buffer with
        | .error msg => .error ("failed to convert PDF to images: " ++ msg)
        | .ok images =>
          .ok { content := { contentType := "images", textContent := "", imageContent := images },
                numPages := numPages, info := info }

/-- `ParsePdfFromPath` from validator.go lines 54-61: read the file (the
OS read is the `readFile` oracle), then delegate to `ParsePdfFromBuffer`. -/
def ParsePdfFromPath (readFile : String → Except String (List Nat)) (lib : PdfLib)
    (pdfPath : String) (options : Option ParseOptions) : Except String ParsedPdf :=
  match readFile pdfPath with
  | .error e => .error ("failed to read PDF from path: " ++ e)
  | .ok data => ParsePdfFromBuffer lib data options

/-! ## Package `schema` (src/pkg/schema/validator.go, `package schema` part) -/

/-- `ValidateSchema` from the schema package: nil map and empty map are
rejected locally; everything else is handed to gojsonschema's
`NewSchema` (the `newSchema` oracle, `some msg` being its error).
The result is `some errorMessage` or `none` for success, mirroring Go's
`error` return. -/
def ValidateSchema (newSchema : SchemaMap → Option String) (schema : Option SchemaMap) :
    Option String :=
  match schema with
  | none => some "schema must be a non-null object"
  | some s =>
    if s.length = 0 then some "schema cannot be empty"
    else
      match newSchema s with
      | some err => some ("schema validation failed: " ++ err)
      | none => none

/-! ## Package `extractor` (src/pkg/types/types.go, `package extractor` part) -/

/-- `types.ExtractorConfig`. Absent Go fields are their zero values
(`""`, `false`, `0`). -/
structure ExtractorConfig where
  openAIAPIKey : String
  baseURL : String
  model : String
  textModel : String
  visionModel : String
  visionEnabled : Bool
  textThreshold : Int
  systemPrompt : String
deriving DecidableEq

/-- The Go zero value of `ExtractorConfig`: what a caller-supplied literal
contains for every field the caller does not set. -/
def ExtractorConfig.zero : ExtractorConfig :=
  { openAIAPIKey := "", baseURL := "", model := "", textModel := "", visionModel := "",
    visionEnabled := false, textThreshold := 0, systemPrompt := "" }

/-- `types.ExtractionOptions`. `schema := none` / `pdfBuffer := none`
model a nil map / nil byte slice. Go's `*float64` temperature is `ℚ`
(only its presence and pass-through matter to the claims). -/
structure ExtractionOptions where
  schema : Option SchemaMap
  pdfPath : String
  pdfBuffer : Option (List Nat)
  temperature : Option ℚ
  maxTokens : Option Int

/-- Constants of the extractor package (types.go lines 95-101). Note
`defaultVisionEnabled` is declared in the source but referenced nowhere. -/
def defaultModel : String := "gpt-4o-mini"

def defaultBaseURL : String := "https://api.openai.com/v1"

def defaultSystemPrompt : String :=
  "You are a helpful assistant that extracts structured data from text. Extract the requested information accurately from the provided text."

def defaultVisionEnabled : Bool := true

def extractorDefaultTextThreshold : Int := 100

/-- The `Extractor` struct (types.go lines 104-113), minus the opaque
`http.Client` handle. -/
structure Extractor where
  apiKey : String
  baseURL : String
  model : String
  textModel : String
  visionModel : String
  config : ExtractorConfig
  systemPrompt : String
deriving DecidableEq

/-- `New` from types.go lines 116-158: reject an empty API key; default
`Model`, `BaseURL` and a zero `TextThreshold`; substitute the default
system prompt for an empty one; resolve the per-mode models with fallback
to `Model`. `VisionEnabled` is left exactly as supplied. -/
def New (config : ExtractorConfig) : Except String Extractor :=
  if config.openAIAPIKey = "" then .error "OpenAI API key is required"
  else
    let config :=
      { config with
        model := if config.model = "" then defaultModel else config.model,
        baseURL := if config.baseURL = "" then defaultBaseURL else config.baseURL,
        textThreshold :=
          if config.textThreshold = 0 then extractorDefaultTextThreshold
          else config.textThreshold }
    let systemPrompt := if config.systemPrompt = "" then defaultSystemPrompt else config.systemPrompt
    let textModel := if config.textModel = "" then config.model else config.textModel
    let visionModel := if config.visionModel = "" then config.model else config.visionModel
    .ok { apiKey := config.openAIAPIKey, baseURL := config.baseURL, model := config.model,
          textModel := textModel, visionModel := visionModel, config := config,
          systemPrompt := systemPrompt }

/-- One block of a vision-mode user message's content array. -/
inductive ContentBlock where
  | text (t : String)
  | imageUrl (url : String)
deriving DecidableEq

/-- A chat message's content: a plain string (text mode and system
messages) or a block array (the vision-mode user message). -/
inductive MessageContent where
  | str (s : String)
  | blocks (bs : List ContentBlock)
deriving DecidableEq

/-- One entry of the `messages` array of a request body. -/
structure Message where
  role : String
  content : MessageContent
deriving DecidableEq

/-- The `response_format` object attached to every request. -/
structure ResponseFormat where
  formatType : String
  name : String
  strict : Bool
  schema : Option SchemaMap

/-- The JSON body POSTed to `{baseURL}/chat/completions`. `temperature`
is always present (the code writes 0.0 when the caller gave none);
`max_tokens` only when supplied. -/
structure RequestBody where
  model : String
  messages : List Message
  responseFormat : ResponseFormat
  temperature : ℚ
  maxTokens : Option Int

/-- `extractFromText` from types.go lines 199-242, up to the network
boundary: it returns the request body that the final `callOpenAI` call
(modelled separately) serializes and POSTs. The system message is
included exactly when the stored `systemPrompt` is non-empty. -/
def extractFromText (e : Extractor) (text : String) (schemaData : Option SchemaMap)
    (options : ExtractionOptions) : RequestBody :=
  let messages : List Message := []
  let messages :=
    if e.systemPrompt ≠ "" then
      messages ++ [{ role := "system", content := .str e.systemPrompt }]
    else messages
  let messages :=
    messages ++
      [{ role := "user",
         content := .str ("Extract the following information from this text:\n\n" ++ text) }]
  { model := e.textModel, messages := messages,
    responseFormat :=
      { formatType := "json_schema", name := "extracted_data", strict := true,
        schema := schemaData },
    temperature := options.temperature.getD 0,
    maxTokens := options.maxTokens }

/-- The failure kinds `Extract` and its helpers can produce before the
network boundary. `visionDisabled` carries the Go message "PDF contains
no extractable text and vision mode is disabled". -/
inductive ExtractErr where
  | missingSource
  | invalidSchema (msg : String)
  | parsePdf (msg : String)
  | visionDisabled
deriving DecidableEq

/-- `extractFromImages` from types.go lines 245-312, up to the network
boundary: the vision-enabled gate comes first, before any content block
is built; on success the result is the request body handed to
`callOpenAI`, with one text block then one image block per page in page
order, each image as a base64 PNG data URI. -/
def extractFromImages (e : Extractor) (images : List PdfPageImage)
    (schemaData : Option SchemaMap) (options : ExtractionOptions) :
    Except ExtractErr RequestBody :=
  if !e.config.visionEnabled then .error .visionDisabled
  else
    let content := [ContentBlock.text
      "Extract the following structured information from these document pages:"]
    let content :=
      content ++ images.map (fun img => ContentBlock.imageUrl ("data:image/png;base64," ++ img.base64))
    let messages : List Message := []
    let messages :=
      if e.systemPrompt ≠ "" then
        messages ++ [{ role := "system", content := .str e.systemPrompt }]
      else messages
    let messages := messages ++ [{ role := "user", content := .blocks content }]
    .ok { model := e.visionModel, messages := messages,
          responseFormat :=
            { formatType := "json_schema", name := "extracted_data", strict := true,
              schema := schemaData },
          temperature := options.temperature.getD 0,
          maxTokens := options.maxTokens }

/-- `Extract` from types.go lines 161-196, up to the network boundary:
validate the source and schema, parse (the path branch is taken whenever
`PDFPath` is non-empty), then dispatch on the parsed content type. The
value returned is the request body the subsequent `callOpenAI` call
POSTs; an `.error` means no request body is ever built and no network
call is issued. -/
def Extract (e : Extractor) (readFile : String → Except String (List Nat)) (lib : PdfLib)
    (newSchema : SchemaMap → Option String) (options : ExtractionOptions) :
    Except ExtractErr RequestBody :=
  if options.pdfPath = "" ∧ options.pdfBuffer = none then .error .missingSource
  else
    match ValidateSchema newSchema options.schema with
    | some msg => .error (.invalidSchema ("invalid JSON schema: " ++ msg))
    | none =>
      let parseOptions : ParseOptions := { textThreshold := e.config.textThreshold }
      let parsedPdf :=
        if options.pdfPath ≠ "" then
          ParsePdfFromPath readFile lib options.pdfPath (some parseOptions)
        else
          ParsePdfFromBuffer lib (options.pdfBuffer.getD []) (some parseOptions)
      match parsedPdf with
      | .error msg => .error (.parsePdf ("failed to parse PDF: " ++ msg))
      | .ok parsed =>
        if parsed.content.contentType = "text" then
          .ok (extractFromText e parsed.content.textContent options.schema options)
        else
          extractFromImages e parsed.content.imageContent options.schema options

/-- The envelope `callOpenAI` unmarshals the response body into
(types.go lines 357-367): per choice only `message.content` is read;
`usage.total_tokens` and `model` default to zero / empty when absent
(Go zero values under `json.Unmarshal`). -/
structure CompletionResponse where
  choices : List String
  totalTokens : Int
  model : String
deriving DecidableEq

/-- `types.ExtractionResult`. -/
structure ExtractionResult where
  data : SchemaMap
  tokensUsed : Int
  model : String

/-- The failure kinds of `callOpenAI` after the transport succeeded. -/
inductive CallErr where
  | remoteError (status : Int) (body : String)
  | parseResponseFailed (msg : String)
  | emptyCompletion
  | malformedCompletion (msg : String)
deriving DecidableEq

/-- `callOpenAI` from types.go lines 315-389, from the point where a
response with `status` and raw `body` has been read (request
serialization and the transport itself are outside this model; a
transport failure never reaches this code path). `unmarshalEnvelope` is
`json.Unmarshal` into the envelope struct; `unmarshalData` is
`json.Unmarshal` of the first choice's content string into
`map[string]interface{}`. Only status 200 (`http.StatusOK`) proceeds;
zero choices or an empty first content string is the "no response"
error; unparseable content is the "failed to parse extracted data"
error. -/
def callOpenAI (unmarshalEnvelope : String → Except String CompletionResponse)
    (unmarshalData : String → Except String SchemaMap)
    (status : Int) (body : String) : Except CallErr ExtractionResult :=
  if status ≠ 200 then .error (.remoteError status body)
  else
    match unmarshalEnvelope body with
    | .error msg => .error (.parseResponseFailed msg)
    | .ok response =>
      match response.choices with
      | [] => .error .emptyCompletion
      | content :: _ =>
        if content = "" then .error .emptyCompletion
        else
          match unmarshalData content with
          | .error msg => .error (.malformedCompletion msg)
          | .ok extractedData =>
            .ok { data := extractedData, tokensUsed := response.totalTokens,
                  model := response.model }

/-- `GetModel` (types.go lines 392-394). -/
def GetModel (e : Extractor) : String := e.model

/-- `GetTextModel` (types.go lines 397-399). -/
def GetTextModel (e : Extractor) : String := e.textModel

/-- `GetVisionModel` (types.go lines 402-404). -/
def GetVisionModel (e : Extractor) : String := e.visionModel

/-- The HTTP success class as the spec uses the word "success": any 2xx
status. Written from the spec's taxonomy ("RemoteError (non-2xx with
status+body)"), to be compared with the source's own gate, which accepts
exactly status 200. -/
def specHttpSuccess (status : Int) : Bool :=
  200 ≤ status ∧ status < 300

/-! ## Shared concrete instances used to instantiate theorems -/

/-- A PDF library whose probes both fail: the least informative oracle. -/
def trivialLib : PdfLib :=
  { pdfInfo := fun _ => .error "probe failed",
    newFromMemory := fun _ => .error "open failed" }

/-- Extraction options with every optional field absent. -/
def noOptions : ExtractionOptions :=
  { schema := none, pdfPath := "", pdfBuffer := none, temperature := none, maxTokens := none }

/-- The successful page texts of a per-page result list, in page order. -/
def pageSuccesses (pageResults : List (Except String String)) : List String :=
  pageResults.filterMap (fun r => match r with | .ok t => some t | .error _ => none)

theorem extractPagesText_eq (pageResults : List (Except String String)) :
    extractPagesText pageResults
      = String.join ((pageSuccesses pageResults).map (fun t => t ++ "\n")) := by
  suffices h : ∀ acc : String,
      pageResults.foldl
        (fun acc r => match r with | .error _ => acc | .ok pageText => acc ++ pageText ++ "\n") acc
      = acc ++ String.join ((pageSuccesses pageResults).map (fun t => t ++ "\n")) by
    have h0 := h ""
    unfold extractPagesText
    rw [h0]
    apply String.ext
    simp
  induction pageResults with
  | nil =>
    intro acc
    apply String.ext
    simp [pageSuccesses, String.join_eq]
  | cons hd tl ih =>
    intro acc
    cases hd with
    | error e =>
      simp only [List.foldl_cons]
      rw [ih]
      apply String.ext
      simp [pageSuccesses, String.join_eq, List.filterMap_cons]
    | ok t =>
      simp only [List.foldl_cons]
      rw [ih]
      apply String.ext
      simp [pageSuccesses, String.join_eq, List.filterMap_cons]

/-- C6: a buffer passes the signature gate exactly when it has at least 4
bytes and they are `%PDF`; whenever the gate reports invalid,
`ParsePdfFromBuffer` rejects with the invalid-PDF error no matter what
the PDF libraries would do (so before any heavier parsing), and the
check is a total function, never failing on short or empty input. -/
theorem c6_signature_gate :
    (∀ buffer : List Nat,
      isValidPdfSignature buffer = true ↔ 4 ≤ buffer.length ∧ buffer.take 4 = pdfSignature) ∧
    (∀ (lib : PdfLib) (buffer : List Nat) (options : Option ParseOptions),
      isValidPdfSignature buffer = false →
      ParsePdfFromBuffer lib buffer options
        = .error "invalid PDF: file does not contain PDF signature") := by
  constructor
  · intro buffer
    unfold isValidPdfSignature
    split
    · next hlt =>
      simp only [Bool.false_eq_true, false_iff, not_and]
      intro h4
      omega
    · next hge =>
      simp only [decide_eq_true_eq, iff_def]
      constructor
      · intro hp
        exact ⟨by omega, hp⟩
      · intro hp
        exact hp.2
  · intro lib buffer options h
    unfold ParsePdfFromBuffer
    simp [h]

/-- C6 witness: the empty buffer is rejected by the parse entry point,
and the exact signature `%PDF` passes the gate. -/
theorem c6_signature_gate_witness :
    ParsePdfFromBuffer trivialLib [] none
      = .error "invalid PDF: file does not contain PDF signature" ∧
    isValidPdfSignature pdfSignature = true :=
  ⟨c6_signature_gate.2 trivialLib [] none (by decide),
   (c6_signature_gate.1 pdfSignature).mpr (by decide)⟩

/-- C9 counterexample: the page loop appends a newline after every
successful page text, so two successful pages "a" and "b" (with a failed
page in between, which is skipped) yield "a\nb\n" — not the
newline-separated concatenation "a\nb" the claim states. -/
theorem c9_trailing_newline_refutes_separator :
    extractPagesText [Except.ok "a", Except.error "boom", Except.ok "b"] = "a\nb\n" ∧
    "a\nb\n" ≠ String.intercalate "\n" ["a", "b"] := by
  constructor
  · rfl
  · decide

/-- C9 (amended): the page loop skips pages whose extraction call fails,
and the returned text is the concatenation, in page order, of each
successfully extracted page text followed by a newline (so a trailing
newline ends the result, rather than newlines appearing only between
pages). -/
theorem c9_page_loop_skips_failures (pageResults : List (Except String String)) :
    extractPagesText pageResults
      = String.join ((pageSuccesses pageResults).map (fun t => t ++ "\n")) :=
  extractPagesText_eq pageResults

/-- C10: a per-call parse-options threshold that is zero or negative is
silently replaced by the default 100 (never rejected), and a
configuration threshold of zero is resolved by `New` to 100, which is
then what the mode decision's threshold resolution yields. -/
theorem c10_threshold_defaulting :
    (∀ opts : ParseOptions, opts.textThreshold ≤ 0 →
      effectiveThreshold (some opts) = 100) ∧
    (∀ cfg : ExtractorConfig, cfg.openAIAPIKey ≠ "" → cfg.textThreshold = 0 →
      (New cfg).toOption.map
        (fun e => effectiveThreshold (some { textThreshold := e.config.textThreshold }))
        = some 100) := by
  constructor
  · intro opts h
    show (if opts.textThreshold > 0 then opts.textThreshold else parserDefaultTextThreshold) = 100
    rw [if_neg (by omega)]
    rfl
  · intro cfg hkey hthr
    unfold New
    rw [if_neg hkey]
    simp only [Except.toOption, Option.map]
    split_ifs
    all_goals simp_all [effectiveThreshold, parserDefaultTextThreshold,
      extractorDefaultTextThreshold]

/-- C10 witness: a negative caller threshold and a zero configuration
threshold both resolve to 100. -/
theorem c10_threshold_defaulting_witness :
    effectiveThreshold (some { textThreshold := -7 }) = 100 ∧
    (New { ExtractorConfig.zero with openAIAPIKey := "key" }).toOption.map
      (fun e => effectiveThreshold (some { textThreshold := e.config.textThreshold }))
      = some 100 :=
  ⟨c10_threshold_defaulting.1 { textThreshold := -7 } (by decide),
   c10_threshold_defaulting.2 { ExtractorConfig.zero with openAIAPIKey := "key" }
     (by decide) rfl⟩

/-- C5: for every positive threshold the mode selector reports
extractable text exactly when the whitespace-trimmed text has length at
least the threshold (so the boundary of exactly `threshold` trimmed
characters selects text mode, and shorter or empty-after-trim text does
not); and the parse entry point selects the `"text"` content type
exactly when the selector reports extractable text at the effective
threshold. -/
theorem c5_mode_selector_threshold :
    (∀ (text : List Char) (threshold : Int), 0 < threshold →
      (hasExtractableText text threshold = true ↔ threshold ≤ (trimSpace text).length)) ∧
    (∀ (lib : PdfLib) (buffer : List Nat) (options : Option ParseOptions)
        (extracted : String) (numPages : Int) (info : SchemaMap) (parsed : ParsedPdf),
      extractTextFromPdf lib buffer = .ok (extracted, numPages, info) →
      ParsePdfFromBuffer lib buffer options = .ok parsed →
      (parsed.content.contentType = "text" ↔
        hasExtractableText extracted.data (effectiveThreshold options) = true)) := by
  constructor
  · intro text threshold h
    unfold hasExtractableText
    split
    · next heq =>
      subst heq
      simp only [trimSpace, List.dropWhile_nil, List.reverse_nil, List.length_nil,
        Nat.cast_zero, Bool.false_eq_true, false_iff, not_le]
      omega
    · simp
  · intro lib buffer options extracted numPages info parsed hext hp
    unfold ParsePdfFromBuffer at hp
    split at hp
    · simp at hp
    · split at hp
      · next msg heq =>
        rw [hext] at heq
        simp at heq
      · next text numPages2 info2 heq =>
        rw [hext] at heq
        injection heq with heq
        simp only [Prod.mk.injEq] at heq
        obtain ⟨rfl, rfl, rfl⟩ := heq
        split at hp
        · next e hconv =>
          dsimp only at hp
          split at hp
          · next hcond =>
            injection hp with hp
            subst hp
            simpa using hcond
          · simp at hp
        · next images hconv =>
          dsimp only at hp
          split at hp
          · next hcond =>
            injection hp with hp
            subst hp
            simpa using hcond
          · next hcond =>
            injection hp with hp
            subst hp
            have himg : ("images" : String) ≠ "text" := by decide
            constructor
            · intro habs
              exact absurd habs himg
            · intro habs
              exact absurd habs (by simpa using hcond)

/-- A one-page library whose page text is "hi" (too short for any
default threshold), to exercise the vision branch. -/
def c5Lib : PdfLib :=
  { pdfInfo := fun _ => .ok (some 1),
    newFromMemory := fun _ =>
      .ok { pageText := fun _ => .ok "hi", numPage := 1, pageImage := fun _ => .ok "imgdata" } }

/-- What `ParsePdfFromBuffer c5Lib pdfSignature none` produces. -/
def c5Parsed : ParsedPdf :=
  { content :=
      { contentType := "images", textContent := "",
        imageContent := [{ page := 1, base64 := "imgdata" }] },
    numPages := 1, info := [] }

/-- C5 witness: at threshold 3 the selector accepts "abc" (boundary
inclusive), and a parsed one-page document with 2 trimmed characters at
the default threshold resolves to the images content type. -/
theorem c5_mode_selector_threshold_witness :
    (hasExtractableText "abc".data 3 = true ↔ (3 : Int) ≤ (trimSpace "abc".data).length) ∧
    (c5Parsed.content.contentType = "text" ↔
      hasExtractableText ("hi\n").data (effectiveThreshold none) = true) :=
  ⟨c5_mode_selector_threshold.1 "abc".data 3 (by decide),
   c5_mode_selector_threshold.2 c5Lib pdfSignature none "hi\n" 1 [] c5Parsed rfl rfl⟩

/-- C8: for every configuration accepted by `New` with a non-empty
default model, `GetModel` is that model; `GetTextModel` is the
configured text model when set, otherwise the default model; and
`GetVisionModel` is the configured vision model when set, otherwise the
default model — so setting only `Model` drives both modes, and each
per-mode override affects only its own mode. -/
theorem c8_model_fallback (cfg : ExtractorConfig) (hkey : cfg.openAIAPIKey ≠ "")
    (hmodel : cfg.model ≠ "") :
    (New cfg).toOption.map (fun e => (GetModel e, GetTextModel e, GetVisionModel e))
      = some (cfg.model,
          (if cfg.textModel = "" then cfg.model else cfg.textModel),
          (if cfg.visionModel = "" then cfg.model else cfg.visionModel)) := by
  unfold New
  rw [if_neg hkey]
  split_ifs <;>
    simp_all [GetModel, GetTextModel, GetVisionModel, Except.toOption]

/-- C8 witness: with model "m" and only the text model overridden to
"tm", the text getter reports "tm" while the vision getter falls back to
"m". -/
theorem c8_model_fallback_witness :
    (New { ExtractorConfig.zero with openAIAPIKey := "key", model := "m", textModel := "tm" }
      ).toOption.map (fun e => (GetModel e, GetTextModel e, GetVisionModel e))
      = some ("m", "tm", "m") :=
  c8_model_fallback
    { ExtractorConfig.zero with openAIAPIKey := "key", model := "m", textModel := "tm" }
    (by decide) (by decide)

/-- C3 counterexample: an orchestrator constructed with an empty
system-prompt string receives the default system prompt, so the
text-mode payload it builds does contain a "system" message — the claim
that the empty string suppresses the system message entirely fails. -/
theorem c3_empty_prompt_not_suppressing :
    ∃ e, New { ExtractorConfig.zero with openAIAPIKey := "key" } = .ok e ∧
      e.systemPrompt = defaultSystemPrompt ∧
      ((extractFromText e "hello" none noOptions).messages.any
        (fun m => m.role = "system")) = true :=
  ⟨_, rfl, rfl, by decide⟩

/-- C3 (amended): `New` replaces an empty configured system prompt with
the default (non-empty) prompt, so an orchestrator constructed with an
empty system-prompt string builds payloads that do contain a system
message; a built payload (text or vision mode) omits the system message
exactly when the orchestrator's stored prompt is empty — which never
results from construction. -/
theorem c3_system_message_iff_prompt_nonempty :
    (∀ cfg : ExtractorConfig, cfg.openAIAPIKey ≠ "" → cfg.systemPrompt = "" →
      (New cfg).toOption.map Extractor.systemPrompt = some defaultSystemPrompt) ∧
    (∀ (e : Extractor) (text : String) (schemaData : Option SchemaMap)
        (options : ExtractionOptions),
      (((extractFromText e text schemaData options).messages.any
          (fun m => m.role = "system")) = true ↔ e.systemPrompt ≠ "")) ∧
    (∀ (e : Extractor) (images : List PdfPageImage) (schemaData : Option SchemaMap)
        (options : ExtractionOptions) (req : RequestBody),
      extractFromImages e images schemaData options = .ok req →
      ((req.messages.any (fun m => m.role = "system")) = true ↔ e.systemPrompt ≠ "")) := by
  refine ⟨?_, ?_, ?_⟩
  · intro cfg hkey hsp
    unfold New
    rw [if_neg hkey]
    split_ifs <;> simp_all [Except.toOption]
  · intro e text schemaData options
    unfold extractFromText
    by_cases h : e.systemPrompt = ""
    · simp [h]
    · simp [h]
  · intro e images schemaData options req hreq
    unfold extractFromImages at hreq
    split at hreq
    · simp at hreq
    · injection hreq with hreq
      subst hreq
      by_cases h : e.systemPrompt = ""
      · simp [h]
      · simp [h]

/-- A concrete orchestrator value with an empty stored prompt and the
zero configuration (so vision disabled), for instantiating theorems. -/
def plainExtractor : Extractor :=
  { apiKey := "k", baseURL := "b", model := "m", textModel := "m", visionModel := "m",
    config := ExtractorConfig.zero, systemPrompt := "" }

/-- C3 witness: construction with an empty prompt stores the default
prompt, and an extractor whose stored prompt is empty builds a text-mode
payload without a system message. -/
theorem c3_system_message_witness :
    ((New { ExtractorConfig.zero with openAIAPIKey := "key" }).toOption.map
      Extractor.systemPrompt = some defaultSystemPrompt) ∧
    (((extractFromText plainExtractor "t" none noOptions).messages.any
        (fun m => m.role = "system")) = true ↔ plainExtractor.systemPrompt ≠ "") :=
  ⟨c3_system_message_iff_prompt_nonempty.1 { ExtractorConfig.zero with openAIAPIKey := "key" }
      (by decide) rfl,
   c3_system_message_iff_prompt_nonempty.2.1 plainExtractor "t" none noOptions⟩

/-- C1 (code bug evidence): a configuration that sets only the API key —
leaving the vision-enabled flag unset, i.e. Go's zero value false — is
accepted by `New`, but the resolved configuration has vision disabled,
contradicting the declared default (`defaultVisionEnabled`, which `New`
never applies, and the field's documented "default: true"); a
vision-mode extraction on that orchestrator therefore fails with the
VisionDisabled error. -/
theorem c1_vision_default_never_applied :
    ∃ e, New { ExtractorConfig.zero with openAIAPIKey := "key" } = .ok e ∧
      e.config.visionEnabled = false ∧
      e.config.visionEnabled ≠ defaultVisionEnabled ∧
      extractFromImages e [] none noOptions = .error ExtractErr.visionDisabled :=
  ⟨_, rfl, rfl, by decide, rfl⟩

/-- C4: when the configuration's vision-enabled flag is false,
`extractFromImages` fails with the VisionDisabled error for every image
list, schema and options — the gate runs before any image content block
is built and no request body is produced (so nothing is ever POSTed) —
and consequently no successful `Extract` result under this orchestrator
ever carries a vision-style block-array message. -/
theorem c4_vision_disabled_gate (e : Extractor) (h : e.config.visionEnabled = false) :
    (∀ images schemaData options,
      extractFromImages e images schemaData options = .error ExtractErr.visionDisabled) ∧
    (∀ readFile lib newSchema options req,
      Extract e readFile lib newSchema options = .ok req →
      ∀ m ∈ req.messages, ∀ bs, m.content ≠ MessageContent.blocks bs) := by
  have h1 : ∀ images schemaData options,
      extractFromImages e images schemaData options = .error ExtractErr.visionDisabled := by
    intro images schemaData options
    unfold extractFromImages
    simp [h]
  have hstr : ∀ (text : String) (schemaData : Option SchemaMap)
      (options : ExtractionOptions) (m : Message),
      m ∈ (extractFromText e text schemaData options).messages →
      ∀ bs, m.content ≠ MessageContent.blocks bs := by
    intro text schemaData options m hm bs
    unfold extractFromText at hm
    by_cases hsp : e.systemPrompt = ""
    · simp [hsp] at hm
      subst hm
      simp
    · simp [hsp] at hm
      rcases hm with hm | hm
      · subst hm
        simp
      · subst hm
        simp
  refine ⟨h1, ?_⟩
  intro readFile lib newSchema options req hreq m hm bs
  unfold Extract at hreq
  split at hreq
  · simp at hreq
  · split at hreq
    · simp at hreq
    · split at hreq
      · dsimp only at hreq
        split at hreq
        · simp at hreq
        · split at hreq
          · injection hreq with hreq
            subst hreq
            exact hstr _ _ _ m hm bs
          · rw [h1] at hreq
            simp at hreq
      · dsimp only at hreq
        split at hreq
        · simp at hreq
        · split at hreq
          · injection hreq with hreq
            subst hreq
            exact hstr _ _ _ m hm bs
          · rw [h1] at hreq
            simp at hreq

/-- C4 witness: the zero-configuration orchestrator (vision flag false)
rejects a vision-mode build with VisionDisabled. -/
theorem c4_vision_disabled_gate_witness :
    extractFromImages plainExtractor [] none noOptions = .error ExtractErr.visionDisabled :=
  (c4_vision_disabled_gate plainExtractor rfl).1 [] none noOptions

/-! ## C2 scenario: both a path and a buffer supplied -/

/-- Configuration for the C2 scenario: valid key, threshold 5. -/
def c2Config : ExtractorConfig :=
  { ExtractorConfig.zero with openAIAPIKey := "key", textThreshold := 5 }

/-- The bytes behind the path: `%PDF` plus the byte 65. -/
def c2PathBytes : List Nat := pdfSignature ++ [65]

/-- The caller-supplied buffer: `%PDF` plus the byte 66. -/
def c2BufBytes : List Nat := pdfSignature ++ [66]

/-- A file system in which every path holds `c2PathBytes`. -/
def c2ReadFile : String → Except String (List Nat) := fun _ => .ok c2PathBytes

/-- A PDF library whose one-page text is "PATH!" for the path bytes and
"BUF!!" for anything else, so the chosen source is observable. -/
def c2Lib : PdfLib :=
  { pdfInfo := fun _ => .ok (some 1),
    newFromMemory := fun b =>
      .ok { pageText := fun _ => .ok (if b = c2PathBytes then "PATH!" else "BUF!!"),
            numPage := 1,
            pageImage := fun _ => .ok "" } }

/-- Extraction options supplying BOTH a path and a byte buffer. -/
def c2Options : ExtractionOptions :=
  { schema := some [("type", JsonValue.str "object")], pdfPath := "doc.pdf",
    pdfBuffer := some c2BufBytes, temperature := none, maxTokens := none }

/-- C2 counterexample: with both a path and a buffer supplied, `Extract`
behaves exactly as if the buffer were absent (the path is the document
source) and differently from the run that uses the buffer — so the byte
buffer does NOT take precedence over the path. -/
theorem c2_buffer_precedence_refuted :
    ∃ e, New c2Config = .ok e ∧
      Extract e c2ReadFile c2Lib (fun _ => none) c2Options
        = Extract e c2ReadFile c2Lib (fun _ => none) { c2Options with pdfBuffer := none } ∧
      Extract e c2ReadFile c2Lib (fun _ => none) c2Options
        ≠ Extract e c2ReadFile c2Lib (fun _ => none) { c2Options with pdfPath := "" } := by
  refine ⟨_, rfl, rfl, fun hcontra => ?_⟩
  have h2 := congrArg (fun r => r.toOption.map RequestBody.messages) hcontra
  exact absurd h2 (by decide)

/-- C2 (amended): when both a PDF path and a PDF byte buffer are
supplied, the PATH takes precedence: `Extract` ignores the buffer
entirely, behaving identically to a request without the buffer, and the
path is the document source. -/
theorem c2_path_precedence (e : Extractor)
    (readFile : String → Except String (List Nat)) (lib : PdfLib)
    (newSchema : SchemaMap → Option String) (options : ExtractionOptions)
    (hpath : options.pdfPath ≠ "") (_hbuf : options.pdfBuffer ≠ none) :
    Extract e readFile lib newSchema options
      = Extract e readFile lib newSchema { options with pdfBuffer := none } := by
  have hA : ¬(options.pdfPath = "" ∧ options.pdfBuffer = none) := fun hc => hpath hc.1
  have hB : ¬(options.pdfPath = "" ∧ (none : Option (List Nat)) = none) := fun hc => hpath hc.1
  unfold Extract
  dsimp only
  rw [if_neg hA, if_neg hB, if_pos hpath, if_pos hpath]
  rfl

/-- C2 witness: a concrete run with both sources supplied equals the
same run with the buffer dropped. -/
theorem c2_path_precedence_witness :
    Extract plainExtractor c2ReadFile c2Lib (fun _ => none) c2Options
      = Extract plainExtractor c2ReadFile c2Lib (fun _ => none)
          { c2Options with pdfBuffer := none } :=
  c2_path_precedence plainExtractor c2ReadFile c2Lib (fun _ => none) c2Options
    (by decide) (by decide)

/-! ## C7: the completion client's response handling -/

/-- A well-formed envelope with one choice whose content is "1". -/
def c7Envelope : CompletionResponse :=
  { choices := ["1"], totalTokens := 42, model := "m1" }

/-- C7 counterexample: HTTP 201 is a success status (2xx), the envelope
has a non-empty choice and its content parses, yet `callOpenAI` fails
with RemoteError — the code accepts exactly status 200, not the success
class. -/
theorem c7_success_class_refuted :
    specHttpSuccess 201 = true ∧
    callOpenAI (fun _ => .ok c7Envelope) (fun _ => .ok []) 201 "raw-body"
      = .error (.remoteError 201 "raw-body") := by
  constructor
  · decide
  · rfl

/-- C7 (amended): with "success" meaning exactly HTTP status 200: any
other status fails with RemoteError carrying the status code and raw
body; on 200, an envelope with zero choices or an empty first content
string fails with EmptyCompletion; a non-empty content string that the
JSON parser rejects fails with MalformedCompletion; and otherwise the
parsed content is returned with the reported total-token count and
model name. -/
theorem c7_completion_client_cases
    (unmarshalEnvelope : String → Except String CompletionResponse)
    (unmarshalData : String → Except String SchemaMap) (status : Int) (body : String) :
    (status ≠ 200 →
      callOpenAI unmarshalEnvelope unmarshalData status body
        = .error (.remoteError status body)) ∧
    (status = 200 → ∀ resp, unmarshalEnvelope body = .ok resp →
      ((resp.choices = [] →
        callOpenAI unmarshalEnvelope unmarshalData status body
          = .error .emptyCompletion) ∧
       (∀ content rest, resp.choices = content :: rest →
         ((content = "" →
            callOpenAI unmarshalEnvelope unmarshalData status body
              = .error .emptyCompletion) ∧
          (content ≠ "" →
            ((∀ msg, unmarshalData content = .error msg →
              callOpenAI unmarshalEnvelope unmarshalData status body
                = .error (.malformedCompletion msg)) ∧
             (∀ d, unmarshalData content = .ok d →
              callOpenAI unmarshalEnvelope unmarshalData status body
                = .ok { data := d, tokensUsed := resp.totalTokens,
                        model := resp.model }))))))) := by
  constructor
  · intro hne
    unfold callOpenAI
    rw [if_pos hne]
  · intro h200 resp hresp
    subst h200
    unfold callOpenAI
    rw [if_neg (fun hc => hc rfl), hresp]
    dsimp only
    constructor
    · intro hnil
      rw [hnil]
    · intro content rest hcons
      rw [hcons]
      dsimp only
      constructor
      · intro hc
        rw [if_pos hc]
      · intro hc
        rw [if_neg hc]
        constructor
        · intro msg hmsg
          rw [hmsg]
        · intro d hd
          rw [hd]

/-- C7 witness: on status 200 with one parseable choice, the client
returns the parsed data with the reported token count and model. -/
theorem c7_completion_client_cases_witness :
    callOpenAI (fun _ => .ok c7Envelope) (fun _ => .ok []) 200 "raw"
      = .ok { data := [], tokensUsed := 42, model := "m1" } :=
  ((((c7_completion_client_cases (fun _ => .ok c7Envelope) (fun _ => .ok []) 200 "raw").2
      rfl c7Envelope rfl).2 "1" [] rfl).2 (by decide)).2 [] rfl

end GoPdfExtractor
